import Mathlib

/-!
Verification of the Buddy AI conversation decision framework.

The definitions below are a shallow embedding of the Python sources:
`conversation/state_detector.py`, `conversation/constants.py`,
`prompts/guardrails.py`, `memory/memory_store.py` and
`memory/memory_referencer.py`. Python strings are modelled as `String` /
`List Char`; `str.lower` is modelled with `Char.toLower` and `str.strip`
with a whitespace-dropping function (the pattern tables and the inputs of
interest are ASCII); regex word boundaries (`\b`) are modelled over ASCII
word characters; Python floats holding the confidence scores are
modelled as `ℚ`; the injectable random source of the memory referencer
is passed as an explicit rational argument.
-/

set_option maxRecDepth 10000

namespace BuddyAI

/-- A rational written as an explicit numerator and denominator in lowest
terms: rational literals built through division do not reduce in the
kernel, so the concrete confidence values (0.8 is ratQ 4 5, and so on) are
written this way. -/
def ratQ (n : Int) (d : Nat) (h1 : d ≠ 0 := by decide)
    (h2 : n.natAbs.Coprime d := by decide) : ℚ := ⟨n, d, h1, h2⟩

/-- Python text.lower() over a character list (ASCII case mapping, as the
pattern tables are ASCII). -/
def pyLower (l : List Char) : List Char := l.map Char.toLower

/-- Python text.strip(): remove leading and trailing whitespace. -/
def pyStrip (l : List Char) : List Char :=
  ((l.dropWhile Char.isWhitespace).reverse.dropWhile Char.isWhitespace).reverse

/-- Python substring containment, pat in text. -/
def containsSub (pat : List Char) : List Char → Bool
  | [] => pat.isEmpty
  | c :: cs => pat.isPrefixOf (c :: cs) || containsSub pat cs

/-- Python text.split(): whitespace-separated words, empty pieces dropped. -/
def pyWordsAux (acc : List Char) : List Char → List (List Char)
  | [] => if acc.isEmpty then [] else [acc.reverse]
  | c :: cs =>
    if c.isWhitespace then
      if acc.isEmpty then pyWordsAux [] cs else acc.reverse :: pyWordsAux [] cs
    else pyWordsAux (c :: acc) cs

def pyWords (l : List Char) : List (List Char) := pyWordsAux [] l

/-- A regex word character (`\w`) over the ASCII range. -/
def isWordChar (c : Char) : Bool := c.isAlphanum || c = '_'

/-- Whether an optional character counts as a word character (absent
characters at the text edges count as non-word). -/
def optWordChar : Option Char → Bool
  | none => false
  | some c => isWordChar c

/-- A match of `pat` at the head of `text` with `\b` required on both
sides; `prev` is the character just before the match position. -/
def matchHere (pat text : List Char) (prev : Option Char) : Bool :=
  pat.isPrefixOf text &&
  (optWordChar prev != optWordChar pat.head?) &&
  (optWordChar pat.getLast? != optWordChar (text.drop pat.length).head?)

def wbSearchAux (pat : List Char) : Option Char → List Char → Bool
  | _, [] => false
  | prev, c :: cs => matchHere pat (c :: cs) prev || wbSearchAux pat (some c) cs

/-- `re.search(r'\b' + re.escape(pat) + r'\b', text)` as a Boolean. -/
def wbSearch (pat text : List Char) : Bool := wbSearchAux pat none text

/-- The 8 conversation states (`conversation/constants.py`). -/
inductive ConversationState where
  | OUT_OF_SCOPE
  | CONFUSED
  | VALIDATION_SEEKING
  | SELF_REFLECTION
  | CAREER_CURIOSITY
  | COMPARISON
  | INFORMATION_SEEKING
  | GREETING
deriving DecidableEq

/-- OUT_OF_SCOPE_PATTERNS (conversation/constants.py), category name
with its keyword list, in source order. -/
def OUT_OF_SCOPE_PATTERNS : List (String × List String) :=
  [ ("mental_health",
     ["depressed", "depression", "anxiety", "anxious", "suicide",
      "self-harm", "self harm", "cutting", "kill myself", "want to die",
      "panic attack", "mental health", "therapy", "therapist",
      "stressed", "overwhelmed", "can't cope", "breaking down"]),
    ("relationships",
     ["boyfriend", "girlfriend", "dating", "crush", "love life",
      "breakup", "broke up", "relationship advice", "ex-", "my ex",
      "cheating", "cheated"]),
    ("family",
     ["parents fighting", "divorce", "family problems", "abuse",
      "hitting me", "beats me", "scared of my parents"]),
    ("politics_religion",
     ["politics", "political", "election", "vote", "government",
      "religion", "religious", "god", "pray", "muslim", "hindu",
      "christian", "caste", "reservation"]),
    ("explicit",
     ["sex", "porn", "naked", "nude"]),
    ("violence",
     ["fight", "violence", "weapon", "gun", "knife", "hurt someone"]) ]

def CONFUSION_PATTERNS : List String :=
  ["i don't know", "i dont know", "idk",
   "i'm confused", "im confused", "confused",
   "i have no idea", "no idea",
   "i'm lost", "im lost", "lost",
   "what should i do", "help me",
   "i'm not sure", "im not sure", "not sure",
   "don't understand", "dont understand",
   "everything is confusing", "so confused",
   "no clue", "clueless"]

def VALIDATION_PATTERNS : List String :=
  ["am i good enough", "can i become", "will i be able to",
   "is it bad if", "is it okay if", "is it wrong",
   "should i", "do you think i can",
   "am i smart enough", "am i capable",
   "is it too late", "is it possible for me",
   "can someone like me", "people like me",
   "am i making a mistake", "is this a bad choice"]

def SELF_REFLECTION_PATTERNS : List String :=
  ["i like", "i love", "i enjoy",
   "i hate", "i don't like", "i dislike",
   "i'm good at", "im good at", "i am good at",
   "i'm bad at", "im bad at", "i am bad at",
   "i prefer", "i find", "i feel",
   "interests me", "bores me",
   "i want to", "i wish", "i hope"]

def CAREER_PATTERNS : List String :=
  ["what does a", "what do", "tell me about",
   "how to become", "how do i become",
   "what is it like to be", "what's it like",
   "career in", "job as", "work as",
   "day in the life", "typical day"]

def COMPARISON_PATTERNS : List String :=
  [" vs ", " versus ", " or ",
   "which is better", "what's better", "whats better",
   "difference between", "compare",
   "should i choose", "science or commerce",
   "engineering or", "doctor or", "better option"]

def INFORMATION_PATTERNS : List String :=
  ["how much", "salary", "pay", "income", "earn",
   "entrance exam", "exam", "jee", "neet", "cat", "clat",
   "college", "university", "iit", "nit", "aiims",
   "fee", "fees", "cost", "tuition",
   "eligibility", "qualification", "degree", "required",
   "years", "duration", "how long"]

def GREETING_PATTERNS : List String :=
  ["hi", "hello", "hey", "hii", "hiii",
   "sup", "yo", "hola", "namaste",
   "good morning", "good afternoon", "good evening",
   "what's up", "whats up", "howdy"]

/-- StateDetector._normalize_text: text.lower().strip(). -/
def normalize_text (s : String) : List Char := pyStrip (pyLower s.data)

/-- StateDetector._check_patterns: some pattern, lowercased, is a
substring of the normalized text. -/
def check_patterns (s : String) (pats : List String) : Bool :=
  pats.any (fun p => containsSub (pyLower p.data) (normalize_text s))

/-- The body of StateDetector._check_out_of_scope over the already
normalized text: the first category one of whose keywords has a
word-boundary match. -/
def check_out_of_scope_chars (t : List Char) : Option String :=
  (OUT_OF_SCOPE_PATTERNS.find?
    (fun cp => cp.2.any (fun p => wbSearch (pyLower p.data) t))).map (fun cp => cp.1)

/-- StateDetector._check_out_of_scope. -/
def check_out_of_scope (s : String) : Option String :=
  check_out_of_scope_chars (normalize_text s)

/-- StateDetector._is_greeting. -/
def is_greeting (s : String) : Bool :=
  let t := normalize_text s
  if (pyWords t).length ≤ 3 then check_patterns s GREETING_PATTERNS
  else GREETING_PATTERNS.any (fun p => (pyLower p.data).isPrefixOf t)

/-- StateDetector._is_confused. -/
def is_confused (s : String) : Bool := check_patterns s CONFUSION_PATTERNS

/-- StateDetector._is_validation_seeking. -/
def is_validation_seeking (s : String) : Bool := check_patterns s VALIDATION_PATTERNS

def question_words : List String := ["what", "how", "which", "where", "when", "why", "?"]

/-- The hard-coded sentence subset of StateDetector._is_self_reflection. -/
def reflection_priority_phrases : List String :=
  ["i like", "i love", "i enjoy", "i hate", "i'm good at", "i prefer"]

/-- The is_question test inside StateDetector._is_self_reflection:
some question word occurs as a substring of the normalized text. -/
def is_question (s : String) : Bool :=
  question_words.any (fun q => containsSub q.data (normalize_text s))

/-- The second disjunct of StateDetector._is_self_reflection: one of the
priority phrases occurs (anywhere) in the normalized text. -/
def has_reflection_priority_phrase (s : String) : Bool :=
  reflection_priority_phrases.any (fun p => containsSub (pyLower p.data) (normalize_text s))

/-- StateDetector._is_self_reflection. -/
def is_self_reflection (s : String) : Bool :=
  if check_patterns s SELF_REFLECTION_PATTERNS then
    !(is_question s) || has_reflection_priority_phrase s
  else false

/-- StateDetector._is_career_curiosity. -/
def is_career_curiosity (s : String) : Bool := check_patterns s CAREER_PATTERNS

/-- StateDetector._is_comparison. -/
def is_comparison (s : String) : Bool := check_patterns s COMPARISON_PATTERNS

/-- StateDetector._is_information_seeking. -/
def is_information_seeking (s : String) : Bool := check_patterns s INFORMATION_PATTERNS

/-- StateDetector.detect_state: the priority cascade. The
conversation_history and student_profile parameters of the source are
unused by it and omitted. -/
def detect_state (s : String) : ConversationState :=
  if (pyStrip s.data).isEmpty then .CONFUSED
  else if (check_out_of_scope s).isSome then .OUT_OF_SCOPE
  else if is_greeting s then .GREETING
  else if is_confused s then .CONFUSED
  else if is_validation_seeking s then .VALIDATION_SEEKING
  else if is_self_reflection s then .SELF_REFLECTION
  else if is_comparison s then .COMPARISON
  else if is_career_curiosity s then .CAREER_CURIOSITY
  else if is_information_seeking s then .INFORMATION_SEEKING
  else .CAREER_CURIOSITY

/-! Response guardrails (prompts/guardrails.py). -/

def FORBIDDEN_RECOMMENDATION_PHRASES : List String :=
  ["you should become", "you should be a", "you would be a great",
   "you would make a great", "you are suited for", "you're suited for",
   "you are perfect for", "you're perfect for", "i recommend",
   "i suggest you become", "you should pursue", "you should definitely",
   "you must become"]

def FORBIDDEN_CORPORATE_PHRASES : List String :=
  ["unlock your potential", "chase your dreams", "synergy",
   "leverage your", "optimize your", "maximize your", "strategic career",
   "career trajectory", "professional development", "skill acquisition",
   "paradigm shift"]

def FORBIDDEN_JUDGMENTAL_PHRASES : List String :=
  ["you're not smart enough", "you're not good enough", "that's a bad choice",
   "that's a wrong choice", "you shouldn't", "that's unrealistic",
   "you can't become"]

/-- Membership in the character class of the emoji regex of
ResponseGuardrails.__init__ (the union of its eleven code-point ranges). -/
def isEmojiChar (c : Char) : Bool :=
  let n := c.toNat
  (0x1F600 ≤ n && n ≤ 0x1F64F) || (0x1F300 ≤ n && n ≤ 0x1F5FF) ||
  (0x1F680 ≤ n && n ≤ 0x1F6FF) || (0x1F700 ≤ n && n ≤ 0x1F77F) ||
  (0x1F780 ≤ n && n ≤ 0x1F7FF) || (0x1F800 ≤ n && n ≤ 0x1F8FF) ||
  (0x1F900 ≤ n && n ≤ 0x1F9FF) || (0x1FA00 ≤ n && n ≤ 0x1FA6F) ||
  (0x1FA70 ≤ n && n ≤ 0x1FAFF) || (0x2702 ≤ n && n ≤ 0x27B0) ||
  (0x24C2 ≤ n && n ≤ 0x1F251)

/-- Number of maximal runs of emoji characters: the emoji pattern is that
character class under a plus quantifier, so re.findall returns one match
per maximal run and count_emojis takes the length of that list. The second
argument says whether the previous character was in the class. -/
def countEmojiRuns : List Char → Bool → Nat
  | [], _ => 0
  | c :: cs, inRun =>
    if isEmojiChar c then (if inRun then 0 else 1) + countEmojiRuns cs true
    else countEmojiRuns cs false

/-- ResponseGuardrails.count_emojis. -/
def count_emojis (s : String) : Nat := countEmojiRuns s.data false

/-- ResponseGuardrails.count_questions: the number of question-mark
characters (the question_patterns list of the source is dead code). -/
def count_questions (s : String) : Nat := s.data.countP (fun c => c == '?')

/-- Python text.split(sep) for a fixed non-empty separator, fuelled to make
the recursion structural; the fuel is at least the text length plus one, so
it never runs out. -/
def splitOnSubFuel (sep : List Char) : Nat → List Char → List Char → List (List Char)
  | 0, acc, rest => [acc.reverse ++ rest]
  | _ + 1, acc, [] => [acc.reverse]
  | fuel + 1, acc, c :: cs =>
    if !sep.isEmpty && sep.isPrefixOf (c :: cs) then
      acc.reverse :: splitOnSubFuel sep fuel [] (List.drop sep.length (c :: cs))
    else splitOnSubFuel sep fuel (c :: acc) cs

def pySplitOnSub (sep l : List Char) : List (List Char) :=
  splitOnSubFuel sep (l.length + 1) [] l

/-- ResponseGuardrails.count_paragraphs: pieces of a blank-line split that
are non-empty after stripping. -/
def count_paragraphs (s : String) : Nat :=
  (pySplitOnSub "\n\n".data s.data).countP (fun p => !(pyStrip p).isEmpty)

def all_forbidden : List String :=
  FORBIDDEN_RECOMMENDATION_PHRASES ++ FORBIDDEN_CORPORATE_PHRASES ++
  FORBIDDEN_JUDGMENTAL_PHRASES

/-- ResponseGuardrails.check_forbidden_phrases: the forbidden phrases that
occur in the lowercased response, in table order. -/
def check_forbidden_phrases (s : String) : List String :=
  all_forbidden.filter (fun p => containsSub p.data (pyLower s.data))

/-- The prefix that validate_response requires of an OUT_OF_SCOPE response
(its em-dash is a true U+2014). -/
def expected_start : String := "I'm sorry — I don't have the right context"

/-- CANONICAL_OUT_OF_SCOPE_RESPONSE of conversation/constants.py,
byte-for-byte: in the source file the em-dash is stored mojibake-encoded as
the three characters U+00E2, U+20AC, U+201D. -/
def CANONICAL_OUT_OF_SCOPE_RESPONSE : String :=
  "I'm sorry â€” I don't have the right context to answer this.\n\nI can help with careers, education, and future planning, but for this it would be better to speak with a trusted adult like a teacher or parent.\n\nIf you'd like, we can talk about your studies, career options, or future plans."

/-- The violations validate_response can report, with the data the source
interpolates into its message strings. -/
inductive Violation where
  | tooManyQuestions (count limit : Nat)
  | tooManyEmojis (count : Nat)
  | forbiddenPhrases (phrases : List String)
  | tooLong (paragraphs : Nat)
  | notCanonical
deriving DecidableEq

/-- ResponseGuardrails.validate_response: (is_valid, violations). -/
def validate_response (response : String) (state : ConversationState) :
    Bool × List Violation :=
  let qc := count_questions response
  let maxQ0 : Nat :=
    if state = .CONFUSED ∨ state = .VALIDATION_SEEKING ∨ state = .SELF_REFLECTION
    then 1 else 2
  let maxQ : Nat := if state = .OUT_OF_SCOPE then 0 else maxQ0
  let ec := count_emojis response
  let forbidden := check_forbidden_phrases response
  let pc := count_paragraphs response
  let violations : List Violation :=
    (if maxQ < qc then [Violation.tooManyQuestions qc maxQ] else []) ++
    (if 1 < ec then [Violation.tooManyEmojis ec] else []) ++
    (if forbidden.isEmpty then [] else [Violation.forbiddenPhrases forbidden]) ++
    (if 5 < pc then [Violation.tooLong pc] else []) ++
    (if state = .OUT_OF_SCOPE ∧
        List.isPrefixOf expected_start.data (pyStrip response.data) = false
     then [Violation.notCanonical] else [])
  (violations.isEmpty, violations)

/-! Memory store (memory/memory_store.py) and referencer
(memory/memory_referencer.py). -/

/-- One stored item: the dictionaries held in the per-kind profile lists.
Trait items carry content and confidence; career-mention items carry
career and sentiment. Absent dictionary keys are none (Python .get
defaults apply where the source uses them). -/
structure MemItem where
  content : Option String := none
  career : Option String := none
  confidence : Option ℚ := none
  sentiment : Option String := none
deriving DecidableEq

/-- The deduplication key of MemoryStore._merge_items:
item.get("content", item.get("career", "")).lower(). -/
def itemKey (it : MemItem) : String :=
  String.mk (pyLower (it.content.getD (it.career.getD "")).data)

/-- item.get("confidence", 0). -/
def itemConf (it : MemItem) : ℚ := it.confidence.getD 0

/-- Assignment merged[k] = v on an insertion-ordered dictionary modelled
as an association list: overwrite in place, or append a novel key. -/
def upsertItem (m : List (String × MemItem)) (k : String) (v : MemItem) :
    List (String × MemItem) :=
  if m.any (fun q => q.1 == k) then
    m.map (fun q => if q.1 == k then (k, v) else q)
  else m ++ [(k, v)]

/-- Dictionary lookup merged.get(k). -/
def lookupItem (m : List (String × MemItem)) (k : String) : Option MemItem :=
  (m.find? (fun q => q.1 == k)).map (fun q => q.2)

/-- The first loop of MemoryStore._merge_items: every existing item is
stored unconditionally. -/
def storeStep (m : List (String × MemItem)) (it : MemItem) :
    List (String × MemItem) :=
  upsertItem m (itemKey it) it

/-- The second loop of MemoryStore._merge_items: a new item is stored when
its key is novel or its confidence is strictly higher than the stored
one's. -/
def mergeStep (m : List (String × MemItem)) (it : MemItem) :
    List (String × MemItem) :=
  match lookupItem m (itemKey it) with
  | none => m ++ [(itemKey it, it)]
  | some old => if itemConf old < itemConf it then upsertItem m (itemKey it) it else m

/-- MemoryStore._merge_items: list(merged.values()). -/
def merge_items (existing incoming : List MemItem) : List MemItem :=
  (incoming.foldl mergeStep (existing.foldl storeStep [])).map (fun q => q.2)

/-- The stored per-kind lists of a StudentProfile row. -/
structure Profile where
  interests : List MemItem := []
  dislikes : List MemItem := []
  strengths : List MemItem := []
  challenges : List MemItem := []
  career_mentions : List MemItem := []
deriving DecidableEq

def emptyProfile : Profile := {}

/-- The extractions argument of MemoryStore.update_profile: the same five
keys (an absent key and an empty list are both falsy in the source, so an
absent key is modelled as the empty list). -/
abbrev Extractions := Profile

/-- MemoryStore.update_profile: each category is merged only when its
incoming list is truthy (non-empty). -/
def update_profile (p : Profile) (e : Extractions) : Profile :=
  { interests :=
      if e.interests.isEmpty then p.interests
      else merge_items p.interests e.interests,
    dislikes :=
      if e.dislikes.isEmpty then p.dislikes
      else merge_items p.dislikes e.dislikes,
    strengths :=
      if e.strengths.isEmpty then p.strengths
      else merge_items p.strengths e.strengths,
    challenges :=
      if e.challenges.isEmpty then p.challenges
      else merge_items p.challenges e.challenges,
    career_mentions :=
      if e.career_mentions.isEmpty then p.career_mentions
      else merge_items p.career_mentions e.career_mentions }

/-- The dictionary MemoryStore.get_profile_summary returns (the student_id
and last_updated bookkeeping fields carry no decision logic and are
omitted). -/
structure ProfileSummary where
  interests : List String
  dislikes : List String
  strengths : List String
  challenges : List String
  careers_discussed : List String
deriving DecidableEq

/-- The comprehension filter: keep i.get("content") when truthy. -/
def truthyContent (it : MemItem) : Option String :=
  match it.content with
  | some c => if c.isEmpty then none else some c
  | none => none

/-- MemoryStore.get_profile_summary. -/
def get_profile_summary (p : Profile) : ProfileSummary :=
  { interests := p.interests.filterMap truthyContent,
    dislikes := p.dislikes.filterMap truthyContent,
    strengths := p.strengths.filterMap truthyContent,
    challenges := p.challenges.filterMap truthyContent,
    careers_discussed := p.career_mentions.filterMap (fun c =>
      match c.career with
      | some car =>
        if car.isEmpty then none
        else if c.sentiment = some "negative" then none
        else some car
      | none => none) }

/-- The mutable state of a MemoryReferencer: the configured minimum gap
and the per-student last-referenced message index. -/
structure Referencer where
  min_messages_between : Int := 5
  last_reference_message_idx : Int → Option Int := fun _ => none

/-- The has_memories test of should_reference_memory: the or-chain over
interests, dislikes, strengths and careers_discussed (challenges are not
consulted). -/
def has_memories (s : ProfileSummary) : Bool :=
  !s.interests.isEmpty || !s.dislikes.isEmpty || !s.strengths.isEmpty ||
  !s.careers_discussed.isEmpty

/-- MemoryReferencer.should_reference_memory. The store is modelled as a
map from student id to stored profile, and the stochastic gate
random.random() < 0.4 takes the drawn random number as the explicit
argument rand. -/
def should_reference_memory (r : Referencer) (store : Int → Profile)
    (sid idx : Int) (rand : ℚ) : Bool :=
  if idx - ((r.last_reference_message_idx sid).getD (-r.min_messages_between)) <
      r.min_messages_between then false
  else if !has_memories (get_profile_summary (store sid)) then false
  else decide (rand < ratQ 2 5)

/-- MemoryReferencer.record_reference_used. -/
def record_reference_used (r : Referencer) (sid idx : Int) : Referencer :=
  { r with last_reference_message_idx :=
      fun k => if k = sid then some idx else r.last_reference_message_idx k }

/-- The interrogative escape hatch of the SELF_REFLECTION rule as the spec
words it: the message begins with one of the hard-coded phrases. The
source (StateDetector._is_self_reflection) instead tests containment
anywhere in the message; this definition exists to be compared against
that behaviour. -/
def spec_begins_with_priority_phrase (s : String) : Bool :=
  reflection_priority_phrases.any (fun p => (pyLower p.data).isPrefixOf (normalize_text s))

/-- Per-kind deduplication: no two entries of the list share a normalized
content key. -/
def goodKeys (l : List MemItem) : Prop :=
  l.Pairwise (fun a b => itemKey a ≠ itemKey b)

/-- Invariant of the merged dictionary: its keys are pairwise distinct
and every entry is stored under the key of its own item. -/
def itemsWF (m : List (String × MemItem)) : Prop :=
  (m.map Prod.fst).Nodup ∧ ∀ q ∈ m, q.1 = itemKey q.2

/-! Shared lemmas. -/

theorem whitespace_toLower {c : Char} (h : c.isWhitespace = true) :
    c.toLower = c := by
  simp only [Char.isWhitespace, Bool.or_eq_true, decide_eq_true_eq] at h
  rcases h with ((rfl | rfl) | rfl) | rfl <;> decide

theorem pyStrip_eq_nil_iff {l : List Char} :
    pyStrip l = [] ↔ ∀ c ∈ l, c.isWhitespace = true := by
  unfold pyStrip
  rw [List.reverse_eq_nil_iff, List.dropWhile_eq_nil_iff]
  constructor
  · intro h c hc
    have hsplit := List.takeWhile_append_dropWhile Char.isWhitespace l
    rw [← hsplit] at hc
    rcases List.mem_append.mp hc with h1 | h2
    · exact List.mem_takeWhile_imp h1
    · exact h c (List.mem_reverse.mpr h2)
  · intro h c hc
    exact h c (List.Sublist.mem (List.mem_reverse.mp hc) (List.dropWhile_sublist _))

theorem normalize_text_eq_nil {s : String} (h : pyStrip s.data = []) :
    normalize_text s = [] := by
  unfold normalize_text pyLower
  rw [pyStrip_eq_nil_iff]
  intro c hc
  rcases List.mem_map.mp hc with ⟨a, ha, rfl⟩
  have hw := pyStrip_eq_nil_iff.mp h a ha
  rw [whitespace_toLower hw]
  exact hw

theorem check_out_of_scope_chars_nil : check_out_of_scope_chars [] = none := by decide

theorem mem_ite_singleton {c : Prop} [Decidable c] {v w : Violation} :
    (v ∈ if c then [w] else []) ↔ c ∧ v = w := by
  by_cases h : c <;> simp [h]

theorem mem_ite_singleton_not {c : Prop} [Decidable c] {v w : Violation} :
    (v ∈ if c then [] else [w]) ↔ ¬c ∧ v = w := by
  by_cases h : c <;> simp [h]

theorem itemsWF_nil : itemsWF [] := ⟨List.nodup_nil, by simp⟩

theorem itemsWF_append {m : List (String × MemItem)} (h : itemsWF m) (v : MemItem)
    (hnot : ∀ q ∈ m, q.1 ≠ itemKey v) : itemsWF (m ++ [(itemKey v, v)]) := by
  constructor
  · rw [List.map_append, List.nodup_append]
    refine ⟨h.1, List.nodup_singleton _, ?_⟩
    intro a ha hb
    rcases List.mem_map.mp ha with ⟨q, hq, rfl⟩
    simp at hb
    exact hnot q hq hb
  · intro q hq
    rcases List.mem_append.mp hq with h1 | h2
    · exact h.2 q h1
    · rw [List.mem_singleton.mp h2]

theorem itemsWF_upsert {m : List (String × MemItem)} (h : itemsWF m) (v : MemItem) :
    itemsWF (upsertItem m (itemKey v) v) := by
  unfold upsertItem
  by_cases hany : m.any (fun q => q.1 == itemKey v) = true
  · rw [if_pos hany]
    constructor
    · rw [List.map_map]
      have hfun : ∀ q ∈ m,
          (Prod.fst ∘ fun q =>
            if q.1 == itemKey v then ((itemKey v, v) : String × MemItem) else q) q
            = Prod.fst q := by
        intro q _
        by_cases hk : q.1 = itemKey v
        · simp [Function.comp, hk]
        · simp [Function.comp, hk]
      rw [List.map_congr_left hfun]
      exact h.1
    · intro q hq
      rcases List.mem_map.mp hq with ⟨a, ha, rfl⟩
      by_cases hk : a.1 = itemKey v
      · simp [hk]
      · simp only [hk, beq_iff_eq, if_neg hk]
        exact h.2 a ha
  · rw [if_neg hany]
    apply itemsWF_append h v
    intro q hq hk
    apply hany
    rw [List.any_eq_true]
    exact ⟨q, hq, by simp [hk]⟩

theorem itemsWF_storeStep {m : List (String × MemItem)} (h : itemsWF m) (it : MemItem) :
    itemsWF (storeStep m it) := itemsWF_upsert h it

theorem itemsWF_mergeStep {m : List (String × MemItem)} (h : itemsWF m) (it : MemItem) :
    itemsWF (mergeStep m it) := by
  unfold mergeStep
  cases hl : lookupItem m (itemKey it) with
  | none =>
    apply itemsWF_append h it
    intro q hq hk
    unfold lookupItem at hl
    rw [Option.map_eq_none'] at hl
    exact List.find?_eq_none.mp hl q hq (by simp [hk])
  | some old =>
    dsimp only
    by_cases hc : itemConf old < itemConf it
    · rw [if_pos hc]; exact itemsWF_upsert h it
    · rw [if_neg hc]; exact h

theorem itemsWF_foldl_store (l : List MemItem) :
    ∀ m, itemsWF m → itemsWF (l.foldl storeStep m) := by
  induction l with
  | nil => intro m h; exact h
  | cons a t ih => intro m h; exact ih _ (itemsWF_storeStep h a)

theorem itemsWF_foldl_merge (l : List MemItem) :
    ∀ m, itemsWF m → itemsWF (l.foldl mergeStep m) := by
  induction l with
  | nil => intro m h; exact h
  | cons a t ih => intro m h; exact ih _ (itemsWF_mergeStep h a)

theorem merge_items_goodKeys (existing incoming : List MemItem) :
    goodKeys (merge_items existing incoming) := by
  have hwf : itemsWF (incoming.foldl mergeStep (existing.foldl storeStep [])) :=
    itemsWF_foldl_merge _ _ (itemsWF_foldl_store _ _ itemsWF_nil)
  unfold merge_items goodKeys
  rw [List.pairwise_map]
  have hkeys : ((incoming.foldl mergeStep (existing.foldl storeStep [])).map
      (fun q => itemKey q.2)).Nodup := by
    have heq : (incoming.foldl mergeStep (existing.foldl storeStep [])).map
        (fun q => itemKey q.2)
        = (incoming.foldl mergeStep (existing.foldl storeStep [])).map Prod.fst := by
      apply List.map_congr_left
      intro q hq
      exact (hwf.2 q hq).symm
    rw [heq]
    exact hwf.1
  exact List.pairwise_map.mp hkeys

theorem update_profile_goodKeys {p : Profile} (e : Extractions)
    (h1 : goodKeys p.interests) (h2 : goodKeys p.dislikes)
    (h3 : goodKeys p.strengths) (h4 : goodKeys p.challenges) :
    goodKeys (update_profile p e).interests ∧
    goodKeys (update_profile p e).dislikes ∧
    goodKeys (update_profile p e).strengths ∧
    goodKeys (update_profile p e).challenges := by
  refine ⟨?_, ?_, ?_, ?_⟩ <;> simp only [update_profile] <;> split
  · exact h1
  · exact merge_items_goodKeys _ _
  · exact h2
  · exact merge_items_goodKeys _ _
  · exact h3
  · exact merge_items_goodKeys _ _
  · exact h4
  · exact merge_items_goodKeys _ _

/-! Claim theorems. -/

/-- C1: every message with a word-boundary match of an out-of-scope
keyword (any of the six categories) is classified OUT_OF_SCOPE — the
out-of-scope check is the first rule of the cascade, so co-occurring
greeting or career phrases cannot override it; in particular
detect_state "I'm depressed about my career choices" = OUT_OF_SCOPE. -/
theorem c1_out_of_scope_priority :
    (∀ s : String, (check_out_of_scope s).isSome = true →
        detect_state s = ConversationState.OUT_OF_SCOPE) ∧
    detect_state "I'm depressed about my career choices" =
      ConversationState.OUT_OF_SCOPE := by
  constructor
  · intro s h
    have hne : (pyStrip s.data).isEmpty = false := by
      cases hEmp : (pyStrip s.data).isEmpty with
      | false => rfl
      | true =>
        exfalso
        have h1 : pyStrip s.data = [] := List.isEmpty_iff.mp hEmp
        have h2 : normalize_text s = [] := normalize_text_eq_nil h1
        rw [check_out_of_scope, h2, check_out_of_scope_chars_nil] at h
        simp at h
    simp [detect_state, hne, h]
  · decide

/-- C1 witness: a concrete message with an out-of-scope keyword
("fight", violence category) is classified OUT_OF_SCOPE. -/
theorem c1_out_of_scope_priority_witness :
    detect_state "we had a fight yesterday" = ConversationState.OUT_OF_SCOPE :=
  c1_out_of_scope_priority.1 "we had a fight yesterday" (by decide)

/-- C3: detect_state is a total function into the 8 states by
construction; empty and whitespace-only inputs short-circuit to CONFUSED,
and when no rule of the cascade matches, the default CAREER_CURIOSITY is
returned. -/
theorem c3_detect_total_default :
    detect_state "" = ConversationState.CONFUSED ∧
    detect_state "   " = ConversationState.CONFUSED ∧
    ∀ s : String, (pyStrip s.data).isEmpty = false →
      check_out_of_scope s = none →
      is_greeting s = false → is_confused s = false →
      is_validation_seeking s = false → is_self_reflection s = false →
      is_comparison s = false → is_career_curiosity s = false →
      is_information_seeking s = false →
      detect_state s = ConversationState.CAREER_CURIOSITY := by
  refine ⟨by decide, by decide, ?_⟩
  intro s h0 h1 h2 h3 h4 h5 h6 h7 h8
  simp [detect_state, h0, h1, h2, h3, h4, h5, h6, h7, h8]

/-- C3 witness: a concrete message matching no rule gets the default. -/
theorem c3_detect_total_default_witness :
    detect_state "zzz" = ConversationState.CAREER_CURIOSITY :=
  c3_detect_total_default.2.2 "zzz" (by decide) (by decide) (by decide)
    (by decide) (by decide) (by decide) (by decide) (by decide) (by decide)

/-- C2 counterexample: validating the stored canonical out-of-scope
response against OUT_OF_SCOPE is invalid, with exactly the
canonical-response violation — the constant's em-dash is stored
mojibake-encoded ("â€”") while the validator's expected prefix carries a
true em-dash, so the startswith check fails on the canonical constant
itself. -/
theorem c2_canonical_response_rejected :
    validate_response CANONICAL_OUT_OF_SCOPE_RESPONSE ConversationState.OUT_OF_SCOPE
      = (false, [Violation.notCanonical]) := by decide

/-- C2 amended: for state OUT_OF_SCOPE the validator reports a
canonical-response violation exactly when the stripped response does not
start with the fixed prefix "I'm sorry — I don't have the right context"
(a prefix of the intended canonical string, not the whole string), and a
response can only be valid if it starts with that prefix; validity is not
implied by the prefix alone, since the other checks still apply. -/
theorem c2_canonical_prefix_check (text : String) :
    (Violation.notCanonical ∈
        (validate_response text ConversationState.OUT_OF_SCOPE).2 ↔
      List.isPrefixOf expected_start.data (pyStrip text.data) = false) ∧
    ((validate_response text ConversationState.OUT_OF_SCOPE).1 = true →
      List.isPrefixOf expected_start.data (pyStrip text.data) = true) := by
  have hiff : Violation.notCanonical ∈
      (validate_response text ConversationState.OUT_OF_SCOPE).2 ↔
      List.isPrefixOf expected_start.data (pyStrip text.data) = false := by
    simp [validate_response, mem_ite_singleton, mem_ite_singleton_not,
      List.mem_append]
  refine ⟨hiff, fun hv => ?_⟩
  cases hx : List.isPrefixOf expected_start.data (pyStrip text.data) with
  | true => rfl
  | false =>
    exfalso
    have h1 := hiff.mpr hx
    have hrel : (validate_response text ConversationState.OUT_OF_SCOPE).1
        = (validate_response text ConversationState.OUT_OF_SCOPE).2.isEmpty := rfl
    rw [hrel] at hv
    rw [List.isEmpty_iff.mp hv] at h1
    simp at h1

/-- C2 witness: a response not starting with the expected prefix gets the
canonical-response violation. -/
theorem c2_canonical_prefix_check_witness :
    Violation.notCanonical ∈
      (validate_response "hello" ConversationState.OUT_OF_SCOPE).2 :=
  (c2_canonical_prefix_check "hello").1.mpr (by decide)

/-- C5: the emoji counter counts maximal runs of adjacent emoji
characters, not single emojis — the three adjacent emojis of
"😊🎉👍 great!" count as one run, so no emoji violation (nor any other)
is reported for it, contradicting the claim; "😊 great!" passes as the
claim says; separating the emojis into two runs does trigger the
violation. -/
theorem c5_emoji_run_counting :
    count_emojis "😊🎉👍 great!" = 1 ∧
    validate_response "😊🎉👍 great!" ConversationState.CAREER_CURIOSITY
      = (true, []) ∧
    count_emojis "😊 great!" = 1 ∧
    validate_response "😊 great!" ConversationState.CAREER_CURIOSITY
      = (true, []) ∧
    count_emojis "😊 🎉👍 great!" = 2 ∧
    (validate_response "😊 🎉👍 great!" ConversationState.CAREER_CURIOSITY).2
      = [Violation.tooManyEmojis 2] := by
  refine ⟨by decide, by decide, by decide, by decide, by decide, by decide⟩

/-- C4 counterexample: on a confidence tie under the same normalized key
the stored (existing) entry is kept — merging existing "Reading" (0.8)
with incoming "reading" (0.8) keeps "Reading", not the incoming entry. -/
theorem c4_tie_keeps_existing :
    merge_items
        [({content := some "Reading", confidence := some (ratQ 4 5)} : MemItem)]
        [({content := some "reading", confidence := some (ratQ 4 5)} : MemItem)]
      = [({content := some "Reading", confidence := some (ratQ 4 5)} : MemItem)] ∧
    merge_items
        [({content := some "Reading", confidence := some (ratQ 4 5)} : MemItem)]
        [({content := some "reading", confidence := some (ratQ 4 5)} : MemItem)]
      ≠ [({content := some "reading", confidence := some (ratQ 4 5)} : MemItem)] := by
  refine ⟨by decide, by decide⟩

/-- C4 amended: the per-kind merge is keyed by lowercased content; on a
key collision the incoming entry replaces the stored one exactly when its
confidence is strictly higher, so confidence ties keep the existing
(older) entry; novel keys are appended. Merging [{reading, 0.8}] with
[{Reading, 0.9}] yields the one entry {Reading, 0.9} (ratQ 4 5 is 0.8 and
ratQ 9 10 is 0.9). -/
theorem c4_merge_strict_confidence (ex inc : MemItem)
    (h : itemKey inc = itemKey ex) :
    merge_items [ex] [inc]
      = (if itemConf ex < itemConf inc then [inc] else [ex]) ∧
    merge_items
        [({content := some "reading", confidence := some (ratQ 4 5)} : MemItem)]
        [({content := some "Reading", confidence := some (ratQ 9 10)} : MemItem)]
      = [({content := some "Reading", confidence := some (ratQ 9 10)} : MemItem)] := by
  constructor
  · by_cases hc : itemConf ex < itemConf inc
    · simp [merge_items, storeStep, mergeStep, upsertItem, lookupItem,
        List.find?, h, hc]
    · simp [merge_items, storeStep, mergeStep, upsertItem, lookupItem,
        List.find?, h, hc]
  · decide

/-- C4 witness: a strictly higher incoming confidence replaces the stored
entry under the same key. -/
theorem c4_merge_strict_confidence_witness :
    merge_items
        [({content := some "a", confidence := some (ratQ 1 2)} : MemItem)]
        [({content := some "A", confidence := some (ratQ 3 4)} : MemItem)]
      = [({content := some "A", confidence := some (ratQ 3 4)} : MemItem)] := by
  rw [(c4_merge_strict_confidence
      ({content := some "a", confidence := some (ratQ 1 2)} : MemItem)
      ({content := some "A", confidence := some (ratQ 3 4)} : MemItem)
      (by decide)).1]
  decide

/-- C8: after any sequence of update_profile merges from the empty
profile, no per-kind list holds two entries with the same normalized
(lowercased) content key. -/
theorem c8_profile_dedup_invariant (updates : List Extractions) :
    goodKeys ((updates.foldl update_profile emptyProfile).interests) ∧
    goodKeys ((updates.foldl update_profile emptyProfile).dislikes) ∧
    goodKeys ((updates.foldl update_profile emptyProfile).strengths) ∧
    goodKeys ((updates.foldl update_profile emptyProfile).challenges) := by
  suffices hgen : ∀ (l : List Extractions) (p : Profile),
      goodKeys p.interests → goodKeys p.dislikes → goodKeys p.strengths →
      goodKeys p.challenges →
      goodKeys ((l.foldl update_profile p).interests) ∧
      goodKeys ((l.foldl update_profile p).dislikes) ∧
      goodKeys ((l.foldl update_profile p).strengths) ∧
      goodKeys ((l.foldl update_profile p).challenges) by
    exact hgen updates emptyProfile List.Pairwise.nil List.Pairwise.nil
      List.Pairwise.nil List.Pairwise.nil
  intro l
  induction l with
  | nil => intro p h1 h2 h3 h4; exact ⟨h1, h2, h3, h4⟩
  | cons a t ih =>
    intro p h1 h2 h3 h4
    have hstep := update_profile_goodKeys a h1 h2 h3 h4
    exact ih _ hstep.1 hstep.2.1 hstep.2.2.1 hstep.2.2.2

/-- C10: update_profile leaves a category's stored list unchanged when
that category's extraction list is empty (absent keys are falsy like
empty lists in the source), and the all-empty extraction result of a
message with no matches leaves the whole profile unchanged. -/
theorem c10_update_profile_frame (p : Profile) (e : Extractions) :
    (e.interests = [] → (update_profile p e).interests = p.interests) ∧
    (e.dislikes = [] → (update_profile p e).dislikes = p.dislikes) ∧
    (e.strengths = [] → (update_profile p e).strengths = p.strengths) ∧
    (e.challenges = [] → (update_profile p e).challenges = p.challenges) ∧
    (e.career_mentions = [] →
      (update_profile p e).career_mentions = p.career_mentions) ∧
    update_profile p emptyProfile = p := by
  refine ⟨?_, ?_, ?_, ?_, ?_, ?_⟩
  · intro h; simp [update_profile, h]
  · intro h; simp [update_profile, h]
  · intro h; simp [update_profile, h]
  · intro h; simp [update_profile, h]
  · intro h; simp [update_profile, h]
  · rfl

/-- C10 witness: an extraction carrying only dislikes leaves the stored
interests untouched. -/
theorem c10_update_profile_frame_witness :
    (update_profile
        ({ interests := [{ content := some "math", confidence := some (ratQ 4 5) }] } : Profile)
        ({ dislikes := [{ content := some "noise", confidence := some (ratQ 4 5) }] } : Extractions)).interests
      = ({ interests := [{ content := some "math", confidence := some (ratQ 4 5) }] } : Profile).interests :=
  (c10_update_profile_frame _ _).1 rfl

/-- C6 counterexample: for a freshly created identity the stored
last-referenced index defaults to −5, so the rate-limit check already
passes at turn 1 — with a populated profile and a random draw below 0.4,
should_reference_memory returns true at turn 1, not false. -/
theorem c6_fresh_identity_true_at_turn1 :
    should_reference_memory (Referencer.mk 5 (fun _ => none))
      (fun _ => ({ interests := [{ content := some "reading", confidence := some (ratQ 4 5) }] } : Profile))
      0 1 (ratQ 1 10) = true := by decide

/-- C6 amended: for a freshly created identity (no reference ever
recorded, default last-referenced index −5) whose profile summary is
non-empty, the rate-limit check passes at every turn index ≥ 0, so
should_reference_memory is decided solely by the 40% stochastic gate and
can return true already at turns 1 through 4. -/
theorem c6_fresh_identity_gate (store : Int → Profile) (sid idx : Int)
    (rand : ℚ) (hidx : 0 ≤ idx)
    (hmem : has_memories (get_profile_summary (store sid)) = true) :
    should_reference_memory (Referencer.mk 5 (fun _ => none)) store sid idx rand
      = decide (rand < ratQ 2 5) := by
  unfold should_reference_memory
  dsimp only [Option.getD]
  rw [if_neg (by omega), hmem]
  simp

/-- C6 witness: at turn 3 of a fresh identity with a populated profile
the result is exactly the stochastic gate's verdict. -/
theorem c6_fresh_identity_gate_witness :
    should_reference_memory (Referencer.mk 5 (fun _ => none))
      (fun _ => ({ interests := [{ content := some "chess", confidence := some (ratQ 4 5) }] } : Profile))
      0 3 (ratQ 9 10) = decide (ratQ 9 10 < ratQ 2 5) :=
  c6_fresh_identity_gate
    (fun _ => ({ interests := [{ content := some "chess", confidence := some (ratQ 4 5) }] } : Profile))
    0 3 (ratQ 9 10) (by decide) (by decide)

/-- C9: after record_reference_used at turn t1, should_reference_memory
answers false for the same identity at every turn t2 with t2 − t1 < 5
(with the default window of 5), whatever the profile and the random
draw — the referencer never signals twice within 5 turns. -/
theorem c9_rate_limit_window (r : Referencer) (store : Int → Profile)
    (sid t1 t2 : Int) (rand : ℚ) (hmin : r.min_messages_between = 5)
    (hwin : t2 - t1 < 5) :
    should_reference_memory (record_reference_used r sid t1) store sid t2 rand
      = false := by
  simp [should_reference_memory, record_reference_used, hmin, hwin]

/-- C9 witness: a reference recorded at turn 7 blocks turn 9. -/
theorem c9_rate_limit_window_witness :
    should_reference_memory
      (record_reference_used (Referencer.mk 5 (fun _ => none)) 0 7)
      (fun _ => ({ interests := [{ content := some "music", confidence := some (ratQ 4 5) }] } : Profile))
      0 9 (ratQ 1 10) = false :=
  c9_rate_limit_window (Referencer.mk 5 (fun _ => none))
    (fun _ => ({ interests := [{ content := some "music", confidence := some (ratQ 4 5) }] } : Profile))
    0 7 9 (ratQ 1 10) rfl (by decide)

/-- C7 counterexample: "What do I like?" contains a self-reflection
phrase, matches no higher-priority rule, is interrogative, and does not
begin with any of the hard-coded subset phrases — yet detect_state
classifies it SELF_REFLECTION, because the source tests containment of
the subset phrases anywhere in the message, not at its start. -/
theorem c7_interrogative_counterexample :
    check_patterns "What do I like?" SELF_REFLECTION_PATTERNS = true ∧
    is_question "What do I like?" = true ∧
    check_out_of_scope "What do I like?" = none ∧
    is_greeting "What do I like?" = false ∧
    is_confused "What do I like?" = false ∧
    is_validation_seeking "What do I like?" = false ∧
    spec_begins_with_priority_phrase "What do I like?" = false ∧
    detect_state "What do I like?" = ConversationState.SELF_REFLECTION := by
  refine ⟨by decide, by decide, by decide, by decide, by decide, by decide,
    by decide, by decide⟩

/-- C7 amended: for an interrogative message that contains a
self-reflection phrase and matches no higher-priority rule, detect_state
returns SELF_REFLECTION exactly when one of the hard-coded subset phrases
("i like", "i love", "i enjoy", "i hate", "i'm good at", "i prefer")
occurs anywhere in the message (containment, not anchored at the start);
otherwise the cascade falls through to the later rules. -/
theorem c7_reflection_containment_gate (s : String)
    (h0 : (pyStrip s.data).isEmpty = false)
    (h1 : check_out_of_scope s = none)
    (h2 : is_greeting s = false)
    (h3 : is_confused s = false)
    (h4 : is_validation_seeking s = false)
    (h5 : check_patterns s SELF_REFLECTION_PATTERNS = true)
    (h6 : is_question s = true) :
    detect_state s = ConversationState.SELF_REFLECTION ↔
      has_reflection_priority_phrase s = true := by
  have hsr : is_self_reflection s = has_reflection_priority_phrase s := by
    simp [is_self_reflection, h5, h6]
  cases hp : has_reflection_priority_phrase s with
  | true => simp [detect_state, h0, h1, h2, h3, h4, hsr, hp]
  | false =>
    cases hcomp : is_comparison s <;> cases hcar : is_career_curiosity s <;>
      cases hinfo : is_information_seeking s <;>
        simp [detect_state, h0, h1, h2, h3, h4, hsr, hp, hcomp, hcar, hinfo]

/-- C7 witness: an interrogative message containing "i enjoy" is
classified SELF_REFLECTION. -/
theorem c7_reflection_containment_gate_witness :
    detect_state "why do i enjoy drawing so much?"
      = ConversationState.SELF_REFLECTION :=
  (c7_reflection_containment_gate "why do i enjoy drawing so much?"
    (by decide) (by decide) (by decide) (by decide) (by decide) (by decide)
    (by decide)).mpr (by decide)

end BuddyAI
